import Mathlib

/-!
Shallow embedding of the health-monitoring engine of
`src/main.py` (class `AWSTrafficController`): the per-endpoint health
records, the monitoring transition applied to one probe outcome
(`_monitor_health`, lines 317-393), alert handling and failover
(`_handle_unhealthy_endpoint`, `_trigger_failover`), registration
(`setup_health_check`), uptime (`_calculate_uptime`) and the
recent-alert count of `get_status`/`get_recommendations`.

Time is modelled as seconds since an arbitrary epoch (`Nat`); the
response-time payload of a probe is a `Nat` of milliseconds.  The Python
dict `self.health_checks` is modelled as an association list whose
assignment replaces the value of an existing key in place (Python dicts
keep insertion order on rewrite).  Fields a record may lack in Python
(`last_check = None`, missing `response_time` / `last_error` keys read
through `.get`) are `Option`s.
-/

namespace AWSTraffic

/-- The `status` string of a health record: the seven values the code
assigns (`'initializing'`, `'healthy'`, `'degraded'`, `'unhealthy'`,
`'timeout'`, `'connection_error'`, `'error'`). -/
inductive Status where
  | initializing
  | healthy
  | degraded
  | unhealthy
  | timeout
  | connection_error
  | error
deriving DecidableEq, Repr

/-- The `HealthCheck` dataclass (lines 26-32): per-endpoint monitoring
configuration. -/
structure HealthCheck where
  endpoint : String
  expected_status : Nat
  timeout : Nat
  interval : Nat
  failure_threshold : Nat
deriving DecidableEq, Repr

/-- One entry of `self.health_checks` (lines 286-293) together with the
keys later code may add (`response_time`, `last_error`). -/
structure HealthData where
  config : HealthCheck
  status : Status
  last_check : Option Nat
  failures : Nat
  success_count : Nat
  created_at : Nat
  response_time : Option Nat
  last_error : Option String
deriving DecidableEq, Repr

/-- An alert dict as built in `_handle_unhealthy_endpoint` (lines
397-406): `id` is `len(self.alerts) + 1` at creation,
`failover_success` is set right after `_trigger_failover` returns.  The
constant `type` and `action_taken` strings carry no information and are
not modelled. -/
structure Alert where
  id : Nat
  timestamp : Nat
  endpoint : String
  status : Status
  failures : Nat
  last_error : String
  failover_success : Bool
deriving DecidableEq, Repr

/-- The `self.metrics` dict (lines 101-107). -/
structure Metrics where
  total_requests : Nat
  successful_health_checks : Nat
  failed_health_checks : Nat
  traffic_routes_created : Nat
  auto_scale_triggers : Nat
deriving DecidableEq, Repr

/-- The mutable state of `AWSTrafficController` that the health engine
touches: the health-record store, the alert log, the monitoring flag and
the metrics counters. -/
structure Controller where
  health_checks : List (String × HealthData)
  alerts : List Alert
  monitoring_active : Bool
  metrics : Metrics
deriving DecidableEq, Repr

/-- A freshly constructed controller: empty store, empty alert log,
monitoring inactive, all counters zero. -/
def Controller.empty : Controller :=
  { health_checks := [], alerts := [], monitoring_active := false,
    metrics := { total_requests := 0, successful_health_checks := 0,
                 failed_health_checks := 0, traffic_routes_created := 0,
                 auto_scale_triggers := 0 } }

/-- `self.health_checks[endpoint]` read. -/
def lookupEp : List (String × HealthData) → String → Option HealthData
  | [], _ => none
  | (k, v) :: rest, key => if k = key then some v else lookupEp rest key

/-- `self.health_checks[endpoint] = value`: a Python dict assignment
replaces the value of an existing key in place and otherwise appends the
new key at the end. -/
def insertEp : List (String × HealthData) → String → HealthData → List (String × HealthData)
  | [], key, v => [(key, v)]
  | (k, w) :: rest, key, v =>
      if k = key then (k, v) :: rest else (k, w) :: insertEp rest key v

/-- The classified result of one probe, following the spec's Outcome
taxonomy for the branches of `_monitor_health`: a completed HTTP
response (matched against `expected_status` at line 353), a
`requests.exceptions.Timeout`, a `requests.exceptions.ConnectionError`,
or any other exception with its message. -/
inductive Outcome where
  | success (status_code : Nat) (response_time : Nat)
  | timeout
  | connectionFailed
  | otherError (msg : String)
deriving DecidableEq, Repr

/-- The per-endpoint field updates of one `_monitor_health` iteration
(lines 353-391), as a pure function of the record, the outcome and the
current time.  Note, faithful to the code:
* a matching response resets `failures` to 0 and sets `healthy`;
* a mismatched response increments `failures` and sets `unhealthy` at
  `failures >= failure_threshold`, `degraded` below it;
* the three exception branches set their state (`timeout`,
  `connection_error`, `error`) immediately on every failing probe,
  whatever the threshold, and skip the `last_check` update at line 370
  (the exception jumps over it). -/
def step_health (hd : HealthData) (o : Outcome) (now : Nat) : HealthData :=
  match o with
  | Outcome.success code rt =>
      if code = hd.config.expected_status then
        { hd with status := Status.healthy, failures := 0,
                  success_count := hd.success_count + 1,
                  response_time := some rt,
                  last_check := some now }
      else
        { hd with failures := hd.failures + 1,
                  last_error := some ("HTTP " ++ toString code),
                  status :=
                    if hd.config.failure_threshold ≤ hd.failures + 1 then
                      Status.unhealthy
                    else Status.degraded,
                  last_check := some now }
  | Outcome.timeout =>
      { hd with failures := hd.failures + 1, status := Status.timeout,
                last_error := some "Request timeout" }
  | Outcome.connectionFailed =>
      { hd with failures := hd.failures + 1, status := Status.connection_error,
                last_error := some "Connection failed" }
  | Outcome.otherError msg =>
      { hd with failures := hd.failures + 1, status := Status.error,
                last_error := some msg }

/-- `_trigger_failover` (lines 420-448): true exactly when some other
endpoint of the store is `healthy`.  In mock mode the nonempty case
returns `True` directly; in live mode the AWS branch is a `pass`, so it
also returns `True`. -/
def trigger_failover (store : List (String × HealthData)) (failed : String) : Bool :=
  store.any fun p => (p.2.status == Status.healthy) && (p.1 != failed)

/-- The alert dict of `_handle_unhealthy_endpoint` with its
`failover_success` field filled in.  The Python code appends the dict
first and mutates `failover_success` on the shared object afterwards;
since `_trigger_failover` never reads `self.alerts`, appending the
completed alert is equivalent. -/
def mk_alert (c : Controller) (endpoint : String) (hd : HealthData) (now : Nat) : Alert :=
  { id := c.alerts.length + 1, timestamp := now, endpoint := endpoint,
    status := hd.status, failures := hd.failures,
    last_error := hd.last_error.getD "Unknown error",
    failover_success := trigger_failover c.health_checks endpoint }

/-- `_handle_unhealthy_endpoint` (lines 395-418): build the alert,
append it, trigger failover, and keep only the last 100 alerts. -/
def handle_unhealthy_endpoint (c : Controller) (endpoint : String) (hd : HealthData)
    (now : Nat) : Controller :=
  let alerts' := c.alerts ++ [mk_alert c endpoint hd now]
  { c with alerts :=
      if alerts'.length > 100 then alerts'.drop (alerts'.length - 100) else alerts' }

/-- One endpoint's share of one `_monitor_health` iteration, applied to
the controller: look the record up, apply `step_health`, store it back,
bump the metrics counter the branch touches (mismatched responses bump
none, lines 359-368), and call `_handle_unhealthy_endpoint` exactly when
the code does: a mismatched response at threshold (line 363) or an
`otherError` at threshold (line 390).  The timeout and connection-error
branches never raise an alert.  When the handler runs, the store already
holds the updated record (Python mutates the dict in place); the only
field the handler could see differently from the stored record is
`last_check`, which it never reads. -/
def monitor_step (c : Controller) (endpoint : String) (o : Outcome) (now : Nat) : Controller :=
  match lookupEp c.health_checks endpoint with
  | none => c
  | some hd =>
      let hd' := step_health hd o now
      let c1 : Controller := { c with health_checks := insertEp c.health_checks endpoint hd' }
      let c2 : Controller :=
        match o with
        | Outcome.success code _ =>
            if code = hd.config.expected_status then
              { c1 with metrics := { c1.metrics with
                  successful_health_checks := c1.metrics.successful_health_checks + 1 } }
            else c1
        | _ =>
            { c1 with metrics := { c1.metrics with
                failed_health_checks := c1.metrics.failed_health_checks + 1 } }
      let alertDue : Bool :=
        match o with
        | Outcome.success code _ =>
            (code != hd.config.expected_status) &&
              decide (hd.config.failure_threshold ≤ hd.failures + 1)
        | Outcome.otherError _ =>
            decide (hd.config.failure_threshold ≤ hd.failures + 1)
        | _ => false
      if alertDue then handle_unhealthy_endpoint c2 endpoint hd' now else c2

/-- A sequence of monitoring steps: each event is (endpoint, outcome,
time of the probe). -/
def run_monitor (c : Controller) : List (String × Outcome × Nat) → Controller
  | [] => c
  | e :: rest => run_monitor (monitor_step c e.1 e.2.1 e.2.2) rest

/-- Python's `str.startswith`, computed on the character lists (the
builtin `String.startsWith` does not reduce inside proofs). -/
def startsWithStr (s pre : String) : Bool := pre.data.isPrefixOf s.data

/-- The endpoint normalization of `setup_health_check` (lines 274-276):
scheme-less identities get `https://` in front. -/
def normalizeEndpoint (e : String) : String :=
  if startsWithStr e "http://" || startsWithStr e "https://" then e else "https://" ++ e

/-- The fresh record `setup_health_check` stores (lines 278-293). -/
def initial_health_data (ep : String) (interval now : Nat) : HealthData :=
  { config := { endpoint := ep, expected_status := 200, timeout := 10,
                interval := interval, failure_threshold := 3 },
    status := Status.initializing, last_check := none, failures := 0,
    success_count := 0, created_at := now,
    response_time := none, last_error := none }

/-- The result dict `setup_health_check` returns on success. -/
structure SetupResult where
  status : String
  message : String
  endpoint : String
  interval : Nat
  monitoring_active : Bool
deriving DecidableEq, Repr

/-- `setup_health_check` (lines 271-315): normalize the identity, store
a fresh record under it (replacing any existing record wholesale), start
monitoring, bump `total_requests` and return the success dict.  The
`except` branch returning `{'status': 'error', ...}` is unreachable for
string inputs: nothing in the `try` body raises for a `str`, so the
function is modelled as total. -/
def setup_health_check (c : Controller) (endpoint : String) (interval now : Nat) :
    Controller × SetupResult :=
  let ep := normalizeEndpoint endpoint
  let c' : Controller :=
    { c with health_checks := insertEp c.health_checks ep (initial_health_data ep interval now),
             monitoring_active := true,
             metrics := { c.metrics with total_requests := c.metrics.total_requests + 1 } }
  (c', { status := "success",
         message := "Health check configured for " ++ ep,
         endpoint := ep, interval := interval, monitoring_active := true })

/-- `_calculate_uptime` (lines 598-610), with the one-decimal string
rendering modelled as the exact rational it rounds:
`success_count / (success_count + failures) * 100`, `none` for the
`'N/A'` case `success_count + failures == 0`.  The denominator is the
record's `failures` field, the consecutive-failure counter. -/
def calculate_uptime (hd : HealthData) : Option ℚ :=
  if hd.success_count + hd.failures = 0 then none
  else some ((hd.success_count : ℚ) / ((hd.success_count + hd.failures : Nat) : ℚ) * 100)

/-- The per-endpoint entry `get_status` reports for a matching target
(lines 540-548), restricted to the fields the claims read. -/
structure StatusEntry where
  status : Status
  failures : Nat
  success_count : Nat
  uptime_percentage : Option ℚ
deriving DecidableEq, Repr

/-- `get_status(target)`'s record for one endpoint of the store (the
substring match at lines 531-534 selects the key; here the key is given
directly). -/
def get_status_for (c : Controller) (endpoint : String) : Option StatusEntry :=
  (lookupEp c.health_checks endpoint).map fun hd =>
    { status := hd.status, failures := hd.failures,
      success_count := hd.success_count,
      uptime_percentage := calculate_uptime hd }

/-- The recency test of `get_status` line 580 and `get_recommendations`
lines 624-625: `(datetime.now() - a['timestamp']).seconds < 3600`.  For
an alert in the past, `timedelta.seconds` is the total age modulo 86400
(the day component is discarded). -/
def recent_alert (now : Nat) (a : Alert) : Bool :=
  (now - a.timestamp) % 86400 < 3600

/-- `recent_alerts` count as the code computes it. -/
def recent_alerts_count (now : Nat) (alerts : List Alert) : Nat :=
  (alerts.filter (recent_alert now)).length

/-- Modelled from the spec's words for comparison (spec section 4.6 and
section 8): the number of alerts whose timestamp lies within the 3600
seconds preceding the query time. -/
def spec_recent_alerts_count (now : Nat) (alerts : List Alert) : Nat :=
  (alerts.filter fun a => decide (now - a.timestamp < 3600)).length

/-- Modelled from the spec's words for comparison (spec section 3 and
section 8): uptime computed from lifetime totals of successful and
failing probes, the failing total never reset by a success. -/
def uptime_from_lifetime_totals (successes failing : Nat) : Option ℚ :=
  if successes + failing = 0 then none
  else some ((successes : ℚ) / ((successes + failing : Nat) : ℚ) * 100)

/-! ## General lemmas about the store, the alert log and the transition -/

/-- Reading back the key just written. -/
theorem lookup_insert_self (l : List (String × HealthData)) (key : String) (v : HealthData) :
    lookupEp (insertEp l key v) key = some v := by
  induction l with
  | nil => simp [insertEp, lookupEp]
  | cons p rest ih =>
      by_cases h : p.1 = key
      · simp [insertEp, lookupEp, h]
      · simp [insertEp, lookupEp, h, ih]

/-- A pointwise property of stored records survives a store write that
itself satisfies it. -/
theorem all_insertEp (l : List (String × HealthData)) (key : String) (v : HealthData)
    (Q : HealthData → Bool) (hl : l.all (fun p => Q p.2) = true) (hv : Q v = true) :
    (insertEp l key v).all (fun p => Q p.2) = true := by
  induction l with
  | nil => simp [insertEp, hv]
  | cons p rest ih =>
      simp only [List.all_cons, Bool.and_eq_true] at hl
      by_cases h : p.1 = key
      · simp [insertEp, h, hv, hl.2]
      · simp [insertEp, h, hl.1, ih hl.2]

/-- The alert log after one `_handle_unhealthy_endpoint` call is the old
log plus the new alert, truncated to its most recent 100 entries. -/
theorem handle_alerts_eq (c : Controller) (ep : String) (hd : HealthData) (now : Nat) :
    (handle_unhealthy_endpoint c ep hd now).alerts =
      (c.alerts ++ [mk_alert c ep hd now]).drop (c.alerts.length + 1 - 100) := by
  unfold handle_unhealthy_endpoint
  simp only [List.length_append, List.length_singleton]
  by_cases h : c.alerts.length + 1 > 100
  · simp only [h, if_pos]
  · simp only [h, if_neg, not_false_eq_true]
    rw [Nat.sub_eq_zero_of_le (Nat.not_lt.mp h), List.drop_zero]

/-- Length of the alert log after one handler call. -/
theorem handle_alerts_length (c : Controller) (ep : String) (hd : HealthData) (now : Nat) :
    (handle_unhealthy_endpoint c ep hd now).alerts.length =
      min (c.alerts.length + 1) 100 := by
  rw [handle_alerts_eq, List.length_drop]
  simp only [List.length_append, List.length_singleton]
  omega

/-- The handler touches the alert log only. -/
theorem handle_health_checks (c : Controller) (ep : String) (hd : HealthData) (now : Nat) :
    (handle_unhealthy_endpoint c ep hd now).health_checks = c.health_checks := rfl

/-- `step_health` never changes the configuration. -/
theorem step_health_config (hd : HealthData) (o : Outcome) (now : Nat) :
    (step_health hd o now).config = hd.config := by
  cases o with
  | success code rt =>
      by_cases h : code = hd.config.expected_status <;> simp [step_health, h]
  | timeout => rfl
  | connectionFailed => rfl
  | otherError msg => rfl

/-- After any single transition, a `healthy` state comes with a zero
failure counter: the only branch producing `healthy` also writes
`failures = 0`. -/
theorem step_health_healthy_zero (hd : HealthData) (o : Outcome) (now : Nat)
    (h : (step_health hd o now).status = Status.healthy) :
    (step_health hd o now).failures = 0 := by
  cases o with
  | success code rt =>
      by_cases hc : code = hd.config.expected_status
      · simp [step_health, hc]
      · exfalso
        simp only [step_health, hc, if_neg, not_false_eq_true] at h
        by_cases ht : hd.config.failure_threshold ≤ hd.failures + 1 <;>
          simp [ht] at h
  | timeout => simp [step_health] at h
  | connectionFailed => simp [step_health] at h
  | otherError msg => simp [step_health] at h

/-- The store after one monitoring step: untouched for an unknown
endpoint, otherwise the written-back `step_health` record. -/
theorem monitor_step_health_checks (c : Controller) (ep : String) (o : Outcome) (now : Nat) :
    (monitor_step c ep o now).health_checks =
      match lookupEp c.health_checks ep with
      | none => c.health_checks
      | some hd => insertEp c.health_checks ep (step_health hd o now) := by
  unfold monitor_step
  cases hl : lookupEp c.health_checks ep with
  | none => rfl
  | some hd =>
      simp only
      split
      · rw [handle_health_checks]
        cases o with
        | success code rt => by_cases h : code = hd.config.expected_status <;> simp [h]
        | timeout => rfl
        | connectionFailed => rfl
        | otherError msg => rfl
      · cases o with
        | success code rt => by_cases h : code = hd.config.expected_status <;> simp [h]
        | timeout => rfl
        | connectionFailed => rfl
        | otherError msg => rfl

/-! ## Repeated failing probes on one record (for the threshold claims) -/

/-- `k` consecutive probes with the same outcome applied to one record. -/
def iterate_probes (hd : HealthData) (o : Outcome) (now : Nat) : Nat → HealthData
  | 0 => hd
  | k + 1 => step_health (iterate_probes hd o now k) o now

/-- Iterated probes keep the configuration. -/
theorem iterate_probes_config (hd : HealthData) (o : Outcome) (now : Nat) (k : Nat) :
    (iterate_probes hd o now k).config = hd.config := by
  induction k with
  | zero => rfl
  | succ k ih => rw [iterate_probes, step_health_config, ih]

/-- One mismatched response: the counter goes up by one and the state
becomes `unhealthy` at threshold, `degraded` below it. -/
theorem step_health_unexpected (hd : HealthData) (code rt now : Nat)
    (h : code ≠ hd.config.expected_status) :
    (step_health hd (Outcome.success code rt) now).failures = hd.failures + 1 ∧
    (step_health hd (Outcome.success code rt) now).status =
      (if hd.config.failure_threshold ≤ hd.failures + 1 then Status.unhealthy
       else Status.degraded) := by
  constructor <;> simp [step_health, h]

/-- Consecutive mismatched responses from a zero counter: after `k`
probes the counter reads `k`. -/
theorem iterate_unexpected_failures (hd : HealthData) (code rt now : Nat)
    (hcode : code ≠ hd.config.expected_status) (hf : hd.failures = 0) (k : Nat) :
    (iterate_probes hd (Outcome.success code rt) now k).failures = k := by
  induction k with
  | zero => exact hf
  | succ k ih =>
      have hc : code ≠ (iterate_probes hd (Outcome.success code rt) now k).config.expected_status := by
        rw [iterate_probes_config]; exact hcode
      rw [iterate_probes,
        (step_health_unexpected _ code rt now hc).1, ih]

/-- A timeout probe always sets the `timeout` state. -/
theorem step_health_timeout (hd : HealthData) (now : Nat) :
    (step_health hd Outcome.timeout now).status = Status.timeout ∧
    (step_health hd Outcome.timeout now).failures = hd.failures + 1 := ⟨rfl, rfl⟩

/-- A connection failure always sets the `connection_error` state. -/
theorem step_health_connection (hd : HealthData) (now : Nat) :
    (step_health hd Outcome.connectionFailed now).status = Status.connection_error ∧
    (step_health hd Outcome.connectionFailed now).failures = hd.failures + 1 := ⟨rfl, rfl⟩

/-- Any other error always sets the `error` state. -/
theorem step_health_other (hd : HealthData) (msg : String) (now : Nat) :
    (step_health hd (Outcome.otherError msg) now).status = Status.error ∧
    (step_health hd (Outcome.otherError msg) now).failures = hd.failures + 1 := ⟨rfl, rfl⟩

/-! ## The healthy-implies-zero-failures invariant -/

/-- The invariant of spec section 8, as a decidable check over the whole
store: every record in state `healthy` has `failures = 0`. -/
def healthy_inv (c : Controller) : Bool :=
  c.health_checks.all fun p => !(p.2.status == Status.healthy) || (p.2.failures == 0)

/-- One transition unconditionally re-establishes the invariant on the
record it writes. -/
theorem step_health_inv (hd : HealthData) (o : Outcome) (now : Nat) :
    (!((step_health hd o now).status == Status.healthy) ||
      ((step_health hd o now).failures == 0)) = true := by
  by_cases h : (step_health hd o now).status = Status.healthy
  · simp [step_health_healthy_zero hd o now h]
  · simp [h]

/-- One monitoring step preserves the invariant. -/
theorem monitor_step_inv (c : Controller) (ep : String) (o : Outcome) (now : Nat)
    (h : healthy_inv c = true) : healthy_inv (monitor_step c ep o now) = true := by
  unfold healthy_inv at h ⊢
  rw [monitor_step_health_checks]
  cases hl : lookupEp c.health_checks ep with
  | none => exact h
  | some hd =>
      exact all_insertEp _ _ _ (fun x => !(x.status == Status.healthy) || (x.failures == 0))
        h (step_health_inv hd o now)

/-! ## Repeated alert raising (for alert-id dynamics) -/

/-- A reference record handed to the alert handler in the repeated-raise
scenario below. -/
def sample_unhealthy : HealthData :=
  { initial_health_data "https://a.example.com" 30 0 with
      status := Status.unhealthy, failures := 3,
      last_error := some "HTTP 500" }

/-- The controller after `n` alert-raising handler calls, starting from
an empty log: each call is the code's only alert-creating operation. -/
def raise_n : Nat → Controller
  | 0 => Controller.empty
  | k + 1 => handle_unhealthy_endpoint (raise_n k) "https://a.example.com" sample_unhealthy 0

/-- `id` the next handler call will assign (line 398:
`len(self.alerts) + 1`). -/
def next_alert_id (c : Controller) : Nat := c.alerts.length + 1

/-- The log holds `min n 100` alerts after `n` raises. -/
theorem raise_n_alerts_length (n : Nat) : (raise_n n).alerts.length = min n 100 := by
  induction n with
  | zero => rfl
  | succ n ih =>
      rw [raise_n, handle_alerts_length, ih]
      omega

/-! ## Claim C1 -/

/-- The controller after registering `api.example.com` (threshold 3) and
feeding one timeout probe. -/
def c1_run : Controller :=
  monitor_step (setup_health_check Controller.empty "api.example.com" 30 0).1
    "https://api.example.com" Outcome.timeout 2

/-- C1 counterexample: one single timeout probe — the first failing
probe, strictly before the third at threshold 3 — already puts the
monitor in the `timeout` failure state, not in `Degraded` (nor does it
leave `Initializing`), so a failing probe strictly before the
threshold-th does not leave the state Degraded. -/
theorem first_timeout_sets_timeout_state :
    (lookupEp c1_run.health_checks "https://api.example.com").map HealthData.status =
        some Status.timeout ∧
    (lookupEp c1_run.health_checks "https://api.example.com").map HealthData.failures =
        some 1 ∧
    (lookupEp c1_run.health_checks "https://api.example.com").map
        (fun h => h.config.failure_threshold) = some 3 ∧
    (1 : Nat) < 3 ∧
    Status.timeout ≠ Status.degraded ∧ Status.timeout ≠ Status.initializing := by
  decide

/-- C1 (amended): starting from `Initializing` or `Healthy` (so with a
zero failure counter), a run of `k ≥ 1` consecutive mismatched-status
probes leaves `Degraded` strictly below the threshold and reaches
`unhealthy` exactly at the threshold-th probe, with the counter at `k`;
whereas `k ≥ 1` consecutive `Timeout` / `ConnectionFailed` /
`OtherError` probes put the monitor in the `timeout` /
`connection_error` / `error` state already from the first probe on,
regardless of the threshold. -/
theorem failure_threshold_transition (hd : HealthData) (code rt now k : Nat) (msg : String)
    (_hst : hd.status = Status.initializing ∨ hd.status = Status.healthy)
    (hf : hd.failures = 0)
    (hcode : code ≠ hd.config.expected_status) (hk : 1 ≤ k) :
    ((iterate_probes hd (Outcome.success code rt) now k).status =
        if hd.config.failure_threshold ≤ k then Status.unhealthy else Status.degraded) ∧
    (iterate_probes hd (Outcome.success code rt) now k).failures = k ∧
    (iterate_probes hd Outcome.timeout now k).status = Status.timeout ∧
    (iterate_probes hd Outcome.connectionFailed now k).status = Status.connection_error ∧
    (iterate_probes hd (Outcome.otherError msg) now k).status = Status.error := by
  obtain ⟨j, rfl⟩ : ∃ j, k = j + 1 := ⟨k - 1, by omega⟩
  refine ⟨?_, iterate_unexpected_failures hd code rt now hcode hf (j + 1), ?_, ?_, ?_⟩
  · have hc : code ≠ (iterate_probes hd (Outcome.success code rt) now j).config.expected_status := by
      rw [iterate_probes_config]; exact hcode
    rw [iterate_probes, (step_health_unexpected _ code rt now hc).2,
      iterate_unexpected_failures hd code rt now hcode hf j, iterate_probes_config]
  · rw [iterate_probes]; exact (step_health_timeout _ now).1
  · rw [iterate_probes]; exact (step_health_connection _ now).1
  · rw [iterate_probes]; exact (step_health_other _ msg now).1

/-- C1 amended theorem applied to a freshly registered record, a
mismatched status 500, threshold 3 and a run of exactly 3 probes. -/
theorem failure_threshold_transition_witness :
    ((iterate_probes (initial_health_data "https://api.example.com" 30 0)
        (Outcome.success 500 7) 2 3).status =
      if (initial_health_data "https://api.example.com" 30 0).config.failure_threshold ≤ 3
      then Status.unhealthy else Status.degraded) ∧
    (iterate_probes (initial_health_data "https://api.example.com" 30 0)
        (Outcome.success 500 7) 2 3).failures = 3 ∧
    (iterate_probes (initial_health_data "https://api.example.com" 30 0)
        Outcome.timeout 2 3).status = Status.timeout ∧
    (iterate_probes (initial_health_data "https://api.example.com" 30 0)
        Outcome.connectionFailed 2 3).status = Status.connection_error ∧
    (iterate_probes (initial_health_data "https://api.example.com" 30 0)
        (Outcome.otherError "boom") 2 3).status = Status.error :=
  failure_threshold_transition (initial_health_data "https://api.example.com" 30 0)
    500 7 2 3 "boom" (Or.inl rfl) rfl (by decide) (by decide)

/-! ## Claim C2 -/

/-- The end-to-end scenario of spec section 8: register
`api.example.com` (threshold 3), then three consecutive
`ConnectionFailed` probes. -/
def c2_run : Controller :=
  run_monitor (setup_health_check Controller.empty "api.example.com" 30 0).1
    [("https://api.example.com", Outcome.connectionFailed, 2),
     ("https://api.example.com", Outcome.connectionFailed, 4),
     ("https://api.example.com", Outcome.connectionFailed, 6)]

/-- C2 counterexample: after the three `ConnectionFailed` probes the
alert log is empty — the connection-error branch (lines 378-382) never
calls `_handle_unhealthy_endpoint`, so not exactly one alert was
appended. -/
theorem three_connection_failures_raise_no_alert :
    c2_run.alerts.length = 0 ∧ ¬ c2_run.alerts.length = 1 := by decide

/-- C2 (amended): the scenario ends in state `connection_error` with
`failures = 3` as `get_status` reports it, but with no alert at all
appended during the three outcomes. -/
theorem three_connection_failures_status :
    (get_status_for c2_run "https://api.example.com").map StatusEntry.status =
      some Status.connection_error ∧
    (get_status_for c2_run "https://api.example.com").map StatusEntry.failures = some 3 ∧
    c2_run.alerts = [] := by decide

/-! ## Claim C3 -/

/-- C3: whichever probe outcomes the monitoring step applies, every
record in state `healthy` has a zero consecutive-failure counter,
provided the starting store satisfied the invariant (a freshly
registered store does). -/
theorem healthy_state_zero_failures (c : Controller) (events : List (String × Outcome × Nat))
    (h : healthy_inv c = true) : healthy_inv (run_monitor c events) = true := by
  induction events generalizing c with
  | nil => exact h
  | cons e rest ih => exact ih _ (monitor_step_inv c e.1 e.2.1 e.2.2 h)

/-- C3 applied to a registered endpoint and a concrete mixed outcome
sequence (fail, success, mismatched status, success). -/
theorem healthy_state_zero_failures_witness :
    healthy_inv (run_monitor (setup_health_check Controller.empty "api.example.com" 30 0).1
      [("https://api.example.com", Outcome.connectionFailed, 2),
       ("https://api.example.com", Outcome.success 200 5, 4),
       ("https://api.example.com", Outcome.success 500 5, 6),
       ("https://api.example.com", Outcome.success 200 5, 8)]) = true :=
  healthy_state_zero_failures (setup_health_check Controller.empty "api.example.com" 30 0).1
    [("https://api.example.com", Outcome.connectionFailed, 2),
     ("https://api.example.com", Outcome.success 200 5, 4),
     ("https://api.example.com", Outcome.success 500 5, 6),
     ("https://api.example.com", Outcome.success 200 5, 8)] (by decide)

/-! ## Claim C4 -/

/-- A record that failed one probe and then succeeded once. -/
def c4_record : HealthData :=
  step_health (step_health (initial_health_data "https://api.example.com" 30 0)
      Outcome.connectionFailed 2) (Outcome.success 200 5) 4

/-- C4 counterexample: `_calculate_uptime` divides by
`success_count + failures`, and `failures` is the consecutive counter
that a successful probe resets to 0 (line 355) — it is not a lifetime
total.  After one failing and one successful probe the code reports
100%, where the claimed lifetime formula gives 50%. -/
theorem uptime_forgets_failures_before_success :
    c4_record.success_count = 1 ∧ c4_record.failures = 0 ∧
    calculate_uptime c4_record = some 100 ∧
    uptime_from_lifetime_totals 1 1 = some 50 ∧
    calculate_uptime c4_record ≠ uptime_from_lifetime_totals 1 1 := by
  have h1 : c4_record.success_count = 1 := by decide
  have h2 : c4_record.failures = 0 := by decide
  have h3 : calculate_uptime c4_record = some 100 := by
    simp [calculate_uptime, h1, h2]
  have h4 : uptime_from_lifetime_totals 1 1 = some 50 := by
    simp [uptime_from_lifetime_totals]
    norm_num
  refine ⟨h1, h2, h3, h4, ?_⟩
  rw [h3, h4]
  intro heq
  exact absurd (Option.some.inj heq) (by norm_num)

/-- C4 (amended): uptime is `N/A` exactly when
`success_count + failures = 0`, and otherwise equals
`success_count / (success_count + failures) * 100`, where `failures` is
the consecutive-failure counter — which a successful matching probe
resets to 0, so the denominator is not a lifetime total. -/
theorem uptime_formula (hd : HealthData) :
    (calculate_uptime hd = none ↔ hd.success_count + hd.failures = 0) ∧
    (hd.success_count + hd.failures ≠ 0 →
      calculate_uptime hd =
        some ((hd.success_count : ℚ) / ((hd.success_count + hd.failures : Nat) : ℚ) * 100)) ∧
    (∀ rt now,
      (step_health hd (Outcome.success hd.config.expected_status rt) now).failures = 0) := by
  refine ⟨?_, ?_, ?_⟩
  · unfold calculate_uptime
    by_cases h : hd.success_count + hd.failures = 0 <;> simp [h]
  · intro h
    unfold calculate_uptime
    simp [h]
  · intro rt now
    simp [step_health]

/-! ## Claim C5 -/

/-- C5: failover reports success exactly when some other endpoint of the
store is `healthy`; when it reports failure, handling the unhealthy
endpoint appends exactly one alert — the log becomes the old log plus
that alert (FIFO-truncated) — and that alert carries
`failover_success = false`. -/
theorem failover_iff_healthy_alternative (c : Controller) (failed : String)
    (hd : HealthData) (now : Nat) :
    (trigger_failover c.health_checks failed = true ↔
      ∃ p, p ∈ c.health_checks ∧ p.2.status = Status.healthy ∧ p.1 ≠ failed) ∧
    (trigger_failover c.health_checks failed = false →
      (mk_alert c failed hd now).failover_success = false ∧
      (handle_unhealthy_endpoint c failed hd now).alerts =
        (c.alerts ++ [mk_alert c failed hd now]).drop (c.alerts.length + 1 - 100)) := by
  constructor
  · unfold trigger_failover
    rw [List.any_eq_true]
    constructor
    · rintro ⟨p, hp, hpp⟩
      rw [Bool.and_eq_true, beq_iff_eq, bne_iff_ne] at hpp
      exact ⟨p, hp, hpp.1, hpp.2⟩
    · rintro ⟨p, hp, h1, h2⟩
      exact ⟨p, hp, by rw [Bool.and_eq_true, beq_iff_eq, bne_iff_ne]; exact ⟨h1, h2⟩⟩
  · intro hfo
    exact ⟨by simp [mk_alert, hfo], handle_alerts_eq c failed hd now⟩

/-! ## Claim C6 -/

/-- C6: after the alert-appending operation the log holds at most 100
entries, and what survives is a FIFO-truncated suffix — the old log plus
the new alert with everything but the most recent 100 entries dropped
from the front, insertion order kept. -/
theorem alert_log_bounded_fifo (c : Controller) (ep : String) (hd : HealthData) (now : Nat) :
    (handle_unhealthy_endpoint c ep hd now).alerts.length ≤ 100 ∧
    ∃ a : Alert, (handle_unhealthy_endpoint c ep hd now).alerts =
      (c.alerts ++ [a]).drop ((c.alerts ++ [a]).length - 100) := by
  constructor
  · rw [handle_alerts_length]; omega
  · refine ⟨mk_alert c ep hd now, ?_⟩
    rw [handle_alerts_eq]
    simp [List.length_append]

/-! ## Claim C7 -/

/-- C7 counterexample: `next_alert_id (raise_n n)` is the id line 398
assigns to the alert created by the `n+1`-st handler call.  The 101st
alert gets id 101; after eviction has begun the log length stays at 100,
so the 102nd alert gets id 101 again — not strictly greater than the id
of every alert created before it. -/
theorem alert_id_repeats_after_eviction :
    next_alert_id (raise_n 100) = 101 ∧ next_alert_id (raise_n 101) = 101 := by
  constructor <;> simp [next_alert_id, raise_n_alerts_length]

/-- C7 (amended): each alert's id is one more than the log length at
creation.  Starting from an empty log the ids are strictly increasing
while fewer than 100 alerts have been raised, but from the 101st alert
on the id stays constant at 101: ids are not monotonic once eviction has
occurred. -/
theorem alert_id_dynamics (n : Nat) :
    next_alert_id (raise_n n) = min n 100 + 1 ∧
    (n < 100 → next_alert_id (raise_n (n + 1)) = next_alert_id (raise_n n) + 1) ∧
    (100 ≤ n → next_alert_id (raise_n (n + 1)) = next_alert_id (raise_n n)) := by
  refine ⟨?_, ?_, ?_⟩ <;> simp [next_alert_id, raise_n_alerts_length] <;> omega

/-! ## Claim C8 -/

/-- An alert raised at time 0 (for the recency counterexample). -/
def old_alert : Alert :=
  { id := 1, timestamp := 0, endpoint := "https://a.example.com",
    status := Status.unhealthy, failures := 3, last_error := "HTTP 500",
    failover_success := false }

/-- C8 counterexample: the code tests `timedelta.seconds < 3600`, the
day component of the age discarded.  An alert 88200 seconds (24 h 30 m)
old — strictly older than one hour — is counted (its age mod 86400 is
1800), so the reported count is 1 where the claimed within-the-hour
count is 0. -/
theorem day_old_alert_counted :
    recent_alerts_count 88200 [old_alert] = 1 ∧
    spec_recent_alerts_count 88200 [old_alert] = 0 ∧
    recent_alerts_count 88200 [old_alert] ≠ spec_recent_alerts_count 88200 [old_alert] := by
  decide

/-- C8 (amended): the reported count is the number of alerts whose age
modulo 86400 seconds is under 3600 (`timedelta.seconds`, not total
seconds).  For logs whose alerts are all less than 24 hours old this
coincides with the within-the-last-hour count; an older alert is counted
again whenever its age mod 24 h falls under one hour. -/
theorem recent_alerts_mod_day (now : Nat) (l : List Alert)
    (h : ∀ a ∈ l, now - a.timestamp < 86400) :
    recent_alerts_count now l = spec_recent_alerts_count now l := by
  unfold recent_alerts_count spec_recent_alerts_count
  congr 1
  apply List.filter_congr
  intro a ha
  unfold recent_alert
  rw [Nat.mod_eq_of_lt (h a ha)]

/-- C8 amended theorem applied to a log whose one alert is 5000 seconds
old. -/
theorem recent_alerts_mod_day_witness :
    recent_alerts_count 5000 [old_alert] = spec_recent_alerts_count 5000 [old_alert] :=
  recent_alerts_mod_day 5000 [old_alert] (by decide)

/-! ## Claim C9 -/

/-- A clearly malformed endpoint identity. -/
def malformed_input : String := "%%% not a url %%%"

/-- C9 counterexample: `setup_health_check` performs no validation — the
malformed identity is accepted with status `success` (not rejected with
status `error`), and a monitor entry is created for it under the
normalized key. -/
theorem malformed_identity_accepted :
    (setup_health_check Controller.empty malformed_input 30 0).2.status = "success" ∧
    ¬ (setup_health_check Controller.empty malformed_input 30 0).2.status = "error" ∧
    (lookupEp (setup_health_check Controller.empty malformed_input 30 0).1.health_checks
        ("https://" ++ malformed_input)).isSome = true := by
  decide

/-- C9 (amended): registration never rejects any string input: it always
returns status `success` and stores a fresh monitor entry under the
normalized identity — and, the `try` body being exception-free for
string inputs, it never raises an unhandled fault. -/
theorem registration_always_succeeds (c : Controller) (endpoint : String)
    (interval now : Nat) :
    (setup_health_check c endpoint interval now).2.status = "success" ∧
    lookupEp (setup_health_check c endpoint interval now).1.health_checks
        (normalizeEndpoint endpoint) =
      some (initial_health_data (normalizeEndpoint endpoint) interval now) :=
  ⟨rfl, lookup_insert_self _ _ _⟩

/-! ## Claim C10 -/

/-- C10: registering an identity already present replaces the whole
record with a fresh one — state `initializing`, `failures` and
`success_count` 0, `last_check` cleared, `created_at` the new
registration time — whatever the old record held. -/
theorem reregistration_resets_record (c : Controller) (ep : String) (interval now : Nat)
    (hd : HealthData)
    (_h : lookupEp c.health_checks (normalizeEndpoint ep) = some hd) :
    lookupEp (setup_health_check c ep interval now).1.health_checks (normalizeEndpoint ep) =
      some (initial_health_data (normalizeEndpoint ep) interval now) :=
  lookup_insert_self _ _ _

/-- A store already holding `https://api.example.com` with a healthy
record and a nonzero lifetime counter. -/
def c10_old : HealthData :=
  { initial_health_data "https://api.example.com" 30 0 with
      status := Status.healthy, failures := 0, success_count := 17,
      last_check := some 99 }

/-- The controller whose store holds `c10_old`. -/
def c10_pre : Controller :=
  { Controller.empty with health_checks := [("https://api.example.com", c10_old)] }

/-- C10 applied to a store that already monitors `api.example.com` with
17 lifetime successes: re-registering yields the fresh record. -/
theorem reregistration_resets_record_witness :
    lookupEp (setup_health_check c10_pre "api.example.com" 60 5).1.health_checks
        (normalizeEndpoint "api.example.com") =
      some (initial_health_data (normalizeEndpoint "api.example.com") 60 5) :=
  reregistration_resets_record c10_pre "api.example.com" 60 5 c10_old (by decide)

end AWSTraffic
